import Mathlib

/-!
Verification development for the kingwoodbot chat backend (src/main.py).

The embedding models the in-memory chat session store (`active_sessions`),
the `/chat` endpoint handler, the payload composition of `call_claude`
(including `build_content` image-block shaping and model selection), the
keyword-triggered response augmentation, and the `/live-quote` endpoint
(`request_live_quote`), which also writes into `active_sessions`.

Python strings are modelled as Lean `String`; `str.strip`, `str.lower`,
substring membership (`x in s`), `str.startswith` and `str.split(",", 1)`
are modelled explicitly on character lists below.  Timestamps
(`datetime.now().isoformat()`) are modelled by an abstract `now : Nat`
threaded into each handler.  The uuid produced by `generate_session_id`
is modelled by a `fresh : String` parameter.
-/

namespace Kingwood

/-! ### Business configuration constants (src/main.py, CONFIG section) -/

def BUSINESS_NAME : String := "Astro Outdoor Designs"

def BUSINESS_PHONE : String := "832-280-5783"

def BUSINESS_EMAIL : String := "admin@kingwoodfencing.com"

def FACEBOOK_PAGE : String := "www.facebook.com/astrooutdoordesigns"

def CLAUDE_MODEL : String := "claude-haiku-4-5-20251001"

/-! ### Python string primitives -/

/-- Models Python `a.startswith(b)` / list-level string membership helper:
`isPrefixL pat l` is true when `pat` is a prefix of `l`. -/
def isPrefixL : List Char → List Char → Bool
  | [], _ => true
  | _ :: _, [] => false
  | a :: as, b :: bs => a == b && isPrefixL as bs

/-- Models Python substring search at the character-list level:
`isSubstrL pat l` is true when `pat` occurs contiguously inside `l`. -/
def isSubstrL (pat : List Char) : List Char → Bool
  | [] => isPrefixL pat []
  | b :: bs => isPrefixL pat (b :: bs) || isSubstrL pat bs

/-- Models Python `pat in s` (substring membership). -/
def containsStr (s pat : String) : Bool := isSubstrL pat.toList s.toList

/-- Models Python `s.lower()` (the keywords involved are ASCII). -/
def pyLower (s : String) : String := String.mk (s.toList.map Char.toLower)

/-- Models Python `s.strip()`: remove leading and trailing whitespace. -/
def pyStrip (s : String) : String :=
  String.mk (((s.toList.dropWhile Char.isWhitespace).reverse.dropWhile
    Char.isWhitespace).reverse)

/-- Models Python `s.startswith(pre)`. -/
def pyStartsWith (s pre : String) : Bool := isPrefixL pre.toList s.toList

/-- Models Python `s.split(",", 1)` at the character-list level: splits at
the first comma; `none` when there is no comma (in which case the Python
two-variable unpacking `header, img_b64 = s.split(",", 1)` raises). -/
def splitFirstComma : List Char → Option (List Char × List Char)
  | [] => none
  | c :: rest =>
    if c == ',' then some ([], rest)
    else
      match splitFirstComma rest with
      | none => none
      | some (h, t) => some (c :: h, t)

/-- String-level wrapper for `splitFirstComma`. -/
def splitComma1 (s : String) : Option (String × String) :=
  (splitFirstComma s.toList).map (fun p => (String.mk p.1, String.mk p.2))

/-- Models Python `x or y` on an optional string: `None` and the empty
string are falsy and fall through to the default. -/
def pyOrStr (o : Option String) (d : String) : String :=
  match o with
  | none => d
  | some s => if s = "" then d else s

/-! ### Response augmentation (src/main.py lines 739-743, inside `chat`) -/

def quoteKeywords : List String :=
  ["quote", "price", "cost", "estimate", "schedule", "when", "how much"]

def socialKeywords : List String :=
  ["facebook", "social", "reviews", "find you"]

/-- Models `any(word in prompt.lower() for word in kws)`. -/
def hasKeyword (prompt : String) (kws : List String) : Bool :=
  kws.any (fun w => containsStr (pyLower prompt) w)

def quoteSuffix : String :=
  "\n\n📞 **Ready to move forward?** Call or text us at **" ++ BUSINESS_PHONE
    ++ "** or email **" ++ BUSINESS_EMAIL ++ "** for fastest response!"

def socialSuffix : String :=
  "\n\n📱 **Find us on Facebook:** " ++ FACEBOOK_PAGE
    ++ " or search for us on Google!"

/-- The keyword-triggered suffix rules applied to the model reply inside
`chat` (lines 739-743): first the purchase-intent suffix, then the
social-media suffix, each conditioned on the original user prompt. -/
def augment (aiResponse prompt : String) : String :=
  let r1 := if hasKeyword prompt quoteKeywords then aiResponse ++ quoteSuffix
            else aiResponse
  if hasKeyword prompt socialKeywords then r1 ++ socialSuffix else r1

/-! ### Basic string append lemmas -/

theorem str_append_empty (s : String) : s ++ "" = s := by
  apply String.ext
  simp [String.data_append]

theorem str_append_ne_empty_left (a b : String) (h : a ≠ "") : a ++ b ≠ "" := by
  intro hc
  apply h
  apply String.ext
  have := congrArg String.data hc
  simp only [String.data_append] at this
  rcases List.append_eq_nil.mp this with ⟨h1, _⟩
  simpa using h1

/-- Closed-form characterization of `augment`: each suffix is appended
exactly when the corresponding keyword set fires, quote suffix first. -/
theorem augment_eq (raw prompt : String) :
    augment raw prompt =
      raw ++ (if hasKeyword prompt quoteKeywords then quoteSuffix else "")
          ++ (if hasKeyword prompt socialKeywords then socialSuffix else "") := by
  unfold augment
  cases hq : hasKeyword prompt quoteKeywords <;>
    cases hs : hasKeyword prompt socialKeywords <;>
      simp [str_append_empty]

/-! ### Data model: turns, sessions, the session store -/

/-- One message dict appended to `active_sessions[sid]["messages"]`.
User turns are stored with an `images` key (`req.images or []`); assistant
turns are stored without one, modelled by `images = none`. -/
structure Turn where
  timestamp : Nat
  type : String
  message : String
  images : Option (List String)
deriving DecidableEq, Repr

/-- The session dict created by `chat` on first reference (lines 706-714). -/
structure ChatSession where
  created : Nat
  user_name : String
  message_count : Nat
  last_activity : Nat
  ip : String
  messages : List Turn
deriving DecidableEq, Repr

/-- The record written by `request_live_quote` (lines 928-939); note it has
no `messages` and no `message_count` key. -/
structure LiveQuoteRec where
  created : Nat
  user_name : String
  phone : String
  status : String
  service_needed : String
  last_activity : Nat
  ip : String
  priority : String
deriving DecidableEq, Repr

/-- A value of `active_sessions`: either a chat session dict or the
live-quote-request dict (whose Python `type` key is the constructor tag). -/
inductive SessionVal where
  | chat (s : ChatSession)
  | liveQuote (q : LiveQuoteRec)
deriving DecidableEq, Repr

/-- The recorded transcript of a store value (empty for a live-quote
record, which has no `messages` key). -/
def turnsOf : SessionVal → List Turn
  | SessionVal.chat s => s.messages
  | SessionVal.liveQuote _ => []

/-- The `active_sessions` dict, as an insertion-ordered association list. -/
abbrev Store := List (String × SessionVal)

def lookupStore : Store → String → Option SessionVal
  | [], _ => none
  | (k, v) :: rest, s => if k = s then some v else lookupStore rest s

def insertStore : Store → String → SessionVal → Store
  | [], k, v => [(k, v)]
  | (k0, v0) :: rest, k, v =>
    if k0 = k then (k, v) :: rest else (k0, v0) :: insertStore rest k v

/-! ### Requests and responses -/

/-- The `Chat` pydantic model (lines 99-103): `prompt` with declared
constraints `min_length=1, max_length=4000`, optional `session_id`,
`user_name` and `images`. -/
structure ChatReq where
  prompt : String
  session_id : Option String
  user_name : Option String
  images : Option (List String)
deriving DecidableEq, Repr

/-- The pydantic field validation of `Chat.prompt` (FastAPI rejects a
violating request with a 422 before the handler runs). -/
def validChat (req : ChatReq) : Bool :=
  decide (1 ≤ req.prompt.length ∧ req.prompt.length ≤ 4000)

/-- The JSON object returned by the `chat` handler.  `message_count` and
`business` are `Option` because not every return path includes those keys. -/
structure ChatResp where
  response : String
  session_id : String
  message_count : Option Nat
  business : Option String
deriving DecidableEq, Repr

/-- Outcome of one upstream `call_claude` invocation: `success raw` is a
2xx response with extractable text `raw` (before the `.strip()`),
`timeout` is `requests.exceptions.Timeout`, `failure` is any other
exception (non-2xx status, malformed body, network error, or an exception
raised while composing the payload). -/
inductive Upstream where
  | success (raw : String)
  | timeout
  | failure
deriving DecidableEq, Repr

def isSuccessUp : Upstream → Bool
  | Upstream.success _ => true
  | _ => false

/-- Result of one `chat` handler run: the returned JSON, the new store,
and whether the upstream call was attempted at all. -/
structure ChatOutcome where
  resp : ChatResp
  store : Store
  upstreamCalled : Bool
deriving DecidableEq, Repr

/-! ### Fixed response texts (string literals in `chat`) -/

def emptyPromptFallback : String :=
  "Quick question — what are you trying to build or fix? (Approximate feet + height helps a lot.)"

def emptyClaudeFallback : String :=
  "Got it. What\x27s the approximate length (feet) and desired height (6ft/7ft/8ft)? Any gates needed?"

def timeoutResponse : String :=
  "That\x27s taking longer than normal. Try again — or call/text us directly at "
    ++ BUSINESS_PHONE ++ " for immediate help!"

def errorResponse : String :=
  "Something hiccupped on our side. Call or text us at " ++ BUSINESS_PHONE
    ++ " or email " ++ BUSINESS_EMAIL ++ " for immediate assistance."

/-! ### The chat handler (src/main.py lines 700-767) -/

/-- The session dict created when `session_id not in active_sessions`
(lines 706-714); `req.user_name or "Visitor"` is Python-falsy `or`. -/
def newSession (now : Nat) (userName : Option String) (ip : String) : ChatSession :=
  { created := now
    user_name := pyOrStr userName "Visitor"
    message_count := 0
    last_activity := now
    ip := ip
    messages := [] }

/-- Lines 706-714: create the session only when the id is absent. -/
def ensureSession (store : Store) (sid : String) (now : Nat)
    (userName : Option String) (ip : String) : Store :=
  match lookupStore store sid with
  | none => insertStore store sid (SessionVal.chat (newSession now userName ip))
  | some _ => store

/-- The user-turn dict appended at lines 718-723. -/
def mkUser (now : Nat) (prompt : String) (imgs : Option (List String)) : Turn :=
  { timestamp := now, type := "user", message := prompt
    images := some (imgs.getD []) }

/-- An assistant-turn dict (appended on each of the four reply paths). -/
def mkAssistant (now : Nat) (msg : String) : Turn :=
  { timestamp := now, type := "assistant", message := msg, images := none }

/-- Everything `chat` does after the session dict is in hand: update
counters, append the user turn, then branch on empty prompt and on the
upstream outcome.  Returns (response JSON, updated session, whether the
upstream call was attempted). -/
def chatCore (now : Nat) (up : Upstream) (prompt : String)
    (imgs : Option (List String)) (sid : String) (s : ChatSession) :
    ChatResp × ChatSession × Bool :=
  let s1 : ChatSession :=
    { s with last_activity := now
             message_count := s.message_count + 1
             messages := s.messages ++ [mkUser now prompt imgs] }
  if prompt = "" then
    ({ response := emptyPromptFallback, session_id := sid
       message_count := none, business := some BUSINESS_NAME },
     { s1 with messages := s1.messages ++ [mkAssistant now emptyPromptFallback] },
     false)
  else
    match up with
    | Upstream.success raw =>
      let ai0 := pyStrip raw
      let ai1 := if ai0 = "" then emptyClaudeFallback else ai0
      let ai := augment ai1 prompt
      ({ response := ai, session_id := sid
         message_count := some s1.message_count, business := some BUSINESS_NAME },
       { s1 with messages := s1.messages ++ [mkAssistant now ai] },
       true)
    | Upstream.timeout =>
      ({ response := timeoutResponse, session_id := sid
         message_count := none, business := none },
       { s1 with messages := s1.messages ++ [mkAssistant now timeoutResponse] },
       true)
    | Upstream.failure =>
      ({ response := errorResponse, session_id := sid
         message_count := none, business := none },
       { s1 with messages := s1.messages ++ [mkAssistant now errorResponse] },
       true)

/-- Projects a chat-session dict out of a store value; a live-quote record
has no `message_count` key, so the mutation at line 717 would raise a
`KeyError` on it. -/
def asChat : SessionVal → Option ChatSession
  | SessionVal.chat s => some s
  | SessionVal.liveQuote _ => none

/-- The `chat` handler (lines 701-767).  `none` models an unhandled
exception escaping the handler (the `KeyError` hit when the resolved id
maps to a live-quote record). -/
def chatHandler (now : Nat) (up : Upstream) (fresh : String) (req : ChatReq)
    (ip : String) (store : Store) : Option ChatOutcome :=
  let prompt := pyStrip req.prompt
  let sid := pyOrStr req.session_id fresh
  let store1 := ensureSession store sid now req.user_name ip
  ((lookupStore store1 sid).bind asChat).map (fun s =>
    let r := chatCore now up prompt req.images sid s
    { resp := r.1
      store := insertStore store1 sid (SessionVal.chat r.2.1)
      upstreamCalled := r.2.2 })

/-- What the caller of the `/chat` endpoint observes. -/
inductive EndpointOut where
  | rejected
  | serverError
  | ok (o : ChatOutcome)
deriving DecidableEq, Repr

/-- The `/chat` endpoint: pydantic validation of the request body, then the
handler; an exception escaping the handler surfaces as a server error. -/
def chatEndpoint (now : Nat) (up : Upstream) (fresh : String) (req : ChatReq)
    (ip : String) (store : Store) : EndpointOut :=
  if validChat req then
    match chatHandler now up fresh req ip store with
    | some o => EndpointOut.ok o
    | none => EndpointOut.serverError
  else EndpointOut.rejected

/-! ### The live-quote endpoint (src/main.py lines 926-951) -/

/-- The `LiveQuoteRequest` pydantic model (lines 115-119). -/
structure LiveQuoteReq where
  session_id : String
  user_name : String
  phone : String
  service_needed : String
deriving DecidableEq, Repr

/-- `request_live_quote` (lines 928-939): unconditionally assigns
`active_sessions[req.session_id]` to a fresh live-quote record. -/
def requestLiveQuote (now : Nat) (req : LiveQuoteReq) (ip : String)
    (store : Store) : Store :=
  insertStore store req.session_id (SessionVal.liveQuote
    { created := now, user_name := req.user_name, phone := req.phone
      status := "callback_requested", service_needed := req.service_needed
      last_activity := now, ip := ip, priority := "high" })

/-! ### Prompt composition (src/main.py lines 584-641, `call_claude`) -/

/-- One element of a structured content list sent to the model API. -/
inductive CBlock where
  | image (media_type : String) (data : String)
  | text (t : String)
deriving DecidableEq, Repr

/-- Message content: a plain string or a list of blocks. -/
inductive CContent where
  | str (s : String)
  | blocks (bs : List CBlock)
deriving DecidableEq, Repr

/-- One role/content entry of the `messages` list. -/
structure CMsg where
  role : String
  content : CContent
deriving DecidableEq, Repr

/-- The if/elif chain over the data-URI header (lines 600-603):
JPEG is the default; PNG, WEBP and GIF are recognized by substring. -/
def mediaTypeOf (header : String) : String :=
  if containsStr header "png" then "image/png"
  else if containsStr header "webp" then "image/webp"
  else if containsStr header "gif" then "image/gif"
  else "image/jpeg"

/-- Lines 598-607: one image string to one image block.  When the string
has a `data:` prefix it is split at the first comma into header and
payload; a `data:` string without a comma makes the Python unpacking
raise, modelled by `none`. -/
def processImage (img : String) : Option CBlock :=
  if pyStartsWith img "data:" then
    match splitComma1 img with
    | none => none
    | some (header, rest) => some (CBlock.image (mediaTypeOf header) rest)
  else some (CBlock.image "image/jpeg" img)

/-- The `for img_b64 in imgs` loop of `build_content`; the first raising
image aborts the whole call. -/
def processImages : List String → Option (List CBlock)
  | [] => some []
  | img :: rest =>
    match processImage img with
    | none => none
    | some b =>
      match processImages rest with
      | none => none
      | some bs => some (b :: bs)

/-- `build_content` (lines 594-611): plain text when there are no images,
otherwise one block per image followed by exactly one trailing text block. -/
def buildContent (text : String) (imgs : List String) : Option CContent :=
  if imgs.isEmpty then some (CContent.str text)
  else
    match processImages imgs with
    | none => none
    | some bs => some (CContent.blocks (bs ++ [CBlock.text text]))

/-- The per-turn body of the history loop (lines 614-624): a user turn is
rebuilt through `build_content` with its stored images, an assistant turn
becomes plain string content, any other `type` is skipped. -/
def turnToMsgs (t : Turn) : Option (List CMsg) :=
  if t.type == "user" then
    match buildContent t.message (t.images.getD []) with
    | none => none
    | some c => some [{ role := "user", content := c }]
  else if t.type == "assistant" then
    some [{ role := "assistant", content := CContent.str t.message }]
  else some []

/-- The history loop over `history[:-1]`. -/
def turnsToMsgs : List Turn → Option (List CMsg)
  | [] => some []
  | t :: ts =>
    match turnToMsgs t with
    | none => none
    | some ms =>
      match turnsToMsgs ts with
      | none => none
      | some rest => some (ms ++ rest)

/-- The full `messages` list (lines 613-629): replayed history (all but
the most recent turn) followed by the current user entry built from
`user_message` and `images or []`. -/
def buildMessages (history : List Turn) (userMessage : String)
    (images : Option (List String)) : Option (List CMsg) :=
  match turnsToMsgs history.dropLast with
  | none => none
  | some ms =>
    match buildContent userMessage (images.getD []) with
    | none => none
    | some c => some (ms ++ [{ role := "user", content := c }])

/-- Line 592: `model = "claude-sonnet-4-5" if images else CLAUDE_MODEL`;
`images` is truthy exactly when it is a non-`None`, non-empty list. -/
def selectModel (images : Option (List String)) : String :=
  if (images.getD []).isEmpty then CLAUDE_MODEL else "claude-sonnet-4-5"

/-- The request payload of `call_claude` (lines 631-636), minus the fixed
system-prompt text, which no claim depends on. -/
structure Payload where
  model : String
  max_tokens : Nat
  messages : List CMsg
deriving DecidableEq, Repr

def callClaudePayload (userMessage : String) (history : List Turn)
    (images : Option (List String)) : Option Payload :=
  match buildMessages history userMessage images with
  | none => none
  | some ms => some { model := selectModel images, max_tokens := 600, messages := ms }

/-! ### Well-formedness helpers for image strings -/

/-- An image string on which `build_content` does not raise: either no
`data:` prefix, or a comma to split at. -/
def wellFormedImg (img : String) : Bool :=
  !(pyStartsWith img "data:") || (splitComma1 img).isSome

/-- The header part the media type is inferred from. -/
def headerOf (img : String) : String :=
  match splitComma1 img with
  | some p => p.1
  | none => ""

/-- The base64 payload `build_content` puts into the image block. -/
def dataOf (img : String) : String :=
  if pyStartsWith img "data:" then
    match splitComma1 img with
    | some p => p.2
    | none => img
  else img

/-- The media type `build_content` tags an image with. -/
def mediaTypeFor (img : String) : String :=
  if pyStartsWith img "data:" then mediaTypeOf (headerOf img) else "image/jpeg"

theorem processImage_wf (img : String) (h : wellFormedImg img = true) :
    processImage img = some (CBlock.image (mediaTypeFor img) (dataOf img)) := by
  unfold processImage mediaTypeFor dataOf headerOf
  cases hp : pyStartsWith img "data:" with
  | false => simp
  | true =>
    simp only [wellFormedImg, hp, Bool.not_true, Bool.false_or] at h
    rcases hs : splitComma1 img with _ | ⟨header, rest⟩
    · rw [hs] at h; simp at h
    · simp [hs]

theorem processImages_wf (imgs : List String)
    (h : ∀ img ∈ imgs, wellFormedImg img = true) :
    processImages imgs =
      some (imgs.map (fun im => CBlock.image (mediaTypeFor im) (dataOf im))) := by
  induction imgs with
  | nil => rfl
  | cons a as ih =>
    have ha := h a (by simp)
    have has : ∀ img ∈ as, wellFormedImg img = true := fun img hm => h img (by simp [hm])
    simp [processImages, processImage_wf a ha, ih has]

/-! ### Store lemmas -/

theorem lookup_insert_self (st : Store) (k : String) (v : SessionVal) :
    lookupStore (insertStore st k v) k = some v := by
  induction st with
  | nil => simp [insertStore, lookupStore]
  | cons hd tl ih =>
    obtain ⟨k0, v0⟩ := hd
    by_cases h : k0 = k
    · simp [insertStore, h, lookupStore]
    · simp [insertStore, h, lookupStore, ih]

theorem lookup_insert_ne (st : Store) (k k' : String) (v : SessionVal)
    (h : k' ≠ k) : lookupStore (insertStore st k v) k' = lookupStore st k' := by
  have hk : ¬k = k' := fun hc => h hc.symm
  induction st with
  | nil => simp [insertStore, lookupStore, hk]
  | cons hd tl ih =>
    obtain ⟨k0, v0⟩ := hd
    by_cases h0 : k0 = k
    · subst h0
      simp [insertStore, lookupStore, hk]
    · simp [insertStore, h0, lookupStore, ih]

theorem ensure_of_none (store : Store) (sid : String) (now : Nat)
    (un : Option String) (ip : String) (h : lookupStore store sid = none) :
    ensureSession store sid now un ip =
      insertStore store sid (SessionVal.chat (newSession now un ip)) := by
  simp [ensureSession, h]

theorem ensure_of_some (store : Store) (sid : String) (now : Nat)
    (un : Option String) (ip : String) (v : SessionVal)
    (h : lookupStore store sid = some v) :
    ensureSession store sid now un ip = store := by
  simp [ensureSession, h]

theorem ensure_lookup_other (store : Store) (sid sid' : String) (now : Nat)
    (un : Option String) (ip : String) (h : sid' ≠ sid) :
    lookupStore (ensureSession store sid now un ip) sid' = lookupStore store sid' := by
  unfold ensureSession
  rcases hl : lookupStore store sid with _ | v
  · simp [lookup_insert_ne _ _ _ _ h]
  · rfl

/-- A store id that will not make the handler raise: not bound to a
live-quote record. -/
def chatCompatible (store : Store) (sid : String) : Bool :=
  match lookupStore store sid with
  | some (SessionVal.liveQuote _) => false
  | _ => true

theorem chatCompatible_ensure (store : Store) (sid : String) (now : Nat)
    (un : Option String) (ip : String) (h : chatCompatible store sid = true) :
    ∃ s, lookupStore (ensureSession store sid now un ip) sid =
        some (SessionVal.chat s) ∧
      ((lookupStore store sid = none ∧ s = newSession now un ip) ∨
        lookupStore store sid = some (SessionVal.chat s)) := by
  unfold chatCompatible at h
  rcases hl : lookupStore store sid with _ | v
  · refine ⟨newSession now un ip, ?_, Or.inl ⟨rfl, rfl⟩⟩
    rw [ensure_of_none _ _ _ _ _ hl, lookup_insert_self]
  · cases v with
    | chat s =>
      refine ⟨s, ?_, Or.inr rfl⟩
      rw [ensure_of_some _ _ _ _ _ _ hl]
      exact hl
    | liveQuote q => rw [hl] at h; simp at h

/-! ### chatCore characterization lemmas -/

theorem chatCore_session_id (now : Nat) (up : Upstream) (prompt : String)
    (imgs : Option (List String)) (sid : String) (s : ChatSession) :
    (chatCore now up prompt imgs sid s).1.session_id = sid := by
  unfold chatCore
  by_cases h : prompt = "" <;> cases up <;> simp [h]

theorem chatCore_messages (now : Nat) (up : Upstream) (prompt : String)
    (imgs : Option (List String)) (sid : String) (s : ChatSession) :
    (chatCore now up prompt imgs sid s).2.1.messages =
      s.messages ++ [mkUser now prompt imgs,
        mkAssistant now (chatCore now up prompt imgs sid s).1.response] := by
  unfold chatCore
  by_cases h : prompt = "" <;> cases up <;> simp [h]

theorem chatCore_count (now : Nat) (up : Upstream) (prompt : String)
    (imgs : Option (List String)) (sid : String) (s : ChatSession) :
    (chatCore now up prompt imgs sid s).2.1.message_count = s.message_count + 1 := by
  unfold chatCore
  by_cases h : prompt = "" <;> cases up <;> simp [h]

theorem chatCore_called (now : Nat) (up : Upstream) (prompt : String)
    (imgs : Option (List String)) (sid : String) (s : ChatSession) :
    (chatCore now up prompt imgs sid s).2.2 = !(prompt == "") := by
  unfold chatCore
  by_cases h : prompt = "" <;> cases up <;> simp [h]

theorem chatCore_resp_of_empty (now : Nat) (up : Upstream)
    (imgs : Option (List String)) (sid : String) (s : ChatSession) :
    (chatCore now up "" imgs sid s).1 =
      { response := emptyPromptFallback, session_id := sid
        message_count := none, business := some BUSINESS_NAME } := by
  unfold chatCore
  simp

theorem chatCore_resp_of_timeout (now : Nat) (prompt : String)
    (imgs : Option (List String)) (sid : String) (s : ChatSession)
    (h : prompt ≠ "") :
    (chatCore now Upstream.timeout prompt imgs sid s).1 =
      { response := timeoutResponse, session_id := sid
        message_count := none, business := none } := by
  unfold chatCore
  simp [h]

theorem chatCore_resp_of_failure (now : Nat) (prompt : String)
    (imgs : Option (List String)) (sid : String) (s : ChatSession)
    (h : prompt ≠ "") :
    (chatCore now Upstream.failure prompt imgs sid s).1 =
      { response := errorResponse, session_id := sid
        message_count := none, business := none } := by
  unfold chatCore
  simp [h]

theorem chatCore_resp_of_success (now : Nat) (raw prompt : String)
    (imgs : Option (List String)) (sid : String) (s : ChatSession)
    (h : prompt ≠ "") :
    (chatCore now (Upstream.success raw) prompt imgs sid s).1 =
      { response :=
          augment (if pyStrip raw = "" then emptyClaudeFallback else pyStrip raw)
            prompt
        session_id := sid
        message_count := some (s.message_count + 1)
        business := some BUSINESS_NAME } := by
  unfold chatCore
  simp [h]

theorem chatCore_resp_count (now : Nat) (up : Upstream) (prompt : String)
    (imgs : Option (List String)) (sid : String) (s : ChatSession) :
    (chatCore now up prompt imgs sid s).1.message_count.isSome =
      (!(prompt == "") && isSuccessUp up) := by
  unfold chatCore
  by_cases h : prompt = "" <;> cases up <;> simp [h, isSuccessUp]

/-! ### chatHandler unfolding -/

theorem chatHandler_eq (now : Nat) (up : Upstream) (fresh : String)
    (req : ChatReq) (ip : String) (store : Store) (s : ChatSession)
    (hs : lookupStore
        (ensureSession store (pyOrStr req.session_id fresh) now req.user_name ip)
        (pyOrStr req.session_id fresh) = some (SessionVal.chat s)) :
    chatHandler now up fresh req ip store =
      some { resp := (chatCore now up (pyStrip req.prompt) req.images
                (pyOrStr req.session_id fresh) s).1
             store := insertStore
                (ensureSession store (pyOrStr req.session_id fresh) now
                  req.user_name ip)
                (pyOrStr req.session_id fresh)
                (SessionVal.chat (chatCore now up (pyStrip req.prompt) req.images
                  (pyOrStr req.session_id fresh) s).2.1)
             upstreamCalled := (chatCore now up (pyStrip req.prompt) req.images
                (pyOrStr req.session_id fresh) s).2.2 } := by
  simp only [chatHandler]
  rw [hs]
  rfl

theorem chatHandler_none_iff (now : Nat) (up : Upstream) (fresh : String)
    (req : ChatReq) (ip : String) (store : Store) :
    chatHandler now up fresh req ip store = none ↔
      chatCompatible store (pyOrStr req.session_id fresh) = false := by
  constructor
  · intro h
    by_contra hc
    have hc' : chatCompatible store (pyOrStr req.session_id fresh) = true := by
      revert hc; cases chatCompatible store (pyOrStr req.session_id fresh) <;> simp
    obtain ⟨s, hs, _⟩ := chatCompatible_ensure store _ now req.user_name ip hc'
    rw [chatHandler_eq now up fresh req ip store s hs] at h
    exact Option.noConfusion h
  · intro h
    unfold chatCompatible at h
    rcases hl : lookupStore store (pyOrStr req.session_id fresh) with _ | v
    · rw [hl] at h; simp at h
    · cases v with
      | chat s => rw [hl] at h; simp at h
      | liveQuote q =>
        simp only [chatHandler]
        rw [ensure_of_some _ _ _ _ _ _ hl, hl]
        rfl

/-! ### Transcript alternation invariant -/

/-- Strict user/assistant alternation: the transcript is a sequence of
pairs, each a `user` turn immediately followed by one `assistant` turn. -/
def altTurns : List Turn → Bool
  | [] => true
  | [_] => false
  | u :: a :: rest => (u.type == "user") && (a.type == "assistant") && altTurns rest

/-- Number of `user` turns recorded in a transcript. -/
def userCount (ts : List Turn) : Nat :=
  (ts.filter (fun t => t.type == "user")).length

theorem altTurns_append_pair :
    ∀ (xs : List Turn) (u a : Turn), u.type = "user" → a.type = "assistant" →
      altTurns xs = true → altTurns (xs ++ [u, a]) = true
  | [], u, a, hu, ha, _ => by simp [altTurns, hu, ha]
  | [_], _, _, _, _, h => by simp [altTurns] at h
  | x :: y :: rest, u, a, hu, ha, h => by
    simp only [altTurns, Bool.and_eq_true] at h
    simp only [List.cons_append, altTurns, Bool.and_eq_true]
    exact ⟨⟨h.1.1, h.1.2⟩, altTurns_append_pair rest u a hu ha h.2⟩

theorem userCount_append_pair (xs : List Turn) (u a : Turn)
    (hu : u.type = "user") (ha : a.type = "assistant") :
    userCount (xs ++ [u, a]) = userCount xs + 1 := by
  simp [userCount, List.filter_append, List.filter, hu, ha]

/-! ### Sequences of chat calls on one session -/

/-- The per-call inputs of one chat request in a call sequence. -/
structure CallIn where
  now : Nat
  up : Upstream
  prompt : String
  user_name : Option String
  images : Option (List String)
  ip : String
deriving DecidableEq, Repr

/-- Runs a sequence of chat calls all carrying the same `session_id`. -/
def runSession (sid : String) : List CallIn → Store → Option Store
  | [], st => some st
  | c :: cs, st =>
    match (chatHandler c.now c.up ""
        { prompt := c.prompt, session_id := some sid,
          user_name := c.user_name, images := c.images } c.ip st) with
    | some o => runSession sid cs o.store
    | none => none

/-- The C4 invariant for one session id: either never created (with zero
calls recorded), or a chat session whose transcript alternates strictly
and whose user-turn count and `message_count` both equal `n`. -/
def SidOk (st : Store) (sid : String) (n : Nat) : Prop :=
  (lookupStore st sid = none ∧ n = 0) ∨
    (∃ s, lookupStore st sid = some (SessionVal.chat s) ∧
      altTurns s.messages = true ∧ userCount s.messages = n ∧
      s.message_count = n)

theorem chatHandler_sidOk {st : Store} {sid : String} {n : Nat}
    (h : SidOk st sid n) (hsid : sid ≠ "") (now : Nat) (up : Upstream)
    (prompt : String) (un : Option String) (imgs : Option (List String))
    (ip : String) :
    ∃ o, chatHandler now up ""
        { prompt := prompt, session_id := some sid,
          user_name := un, images := imgs } ip st = some o ∧
      SidOk o.store sid (n + 1) ∧ o.resp.session_id = sid := by
  have hres : pyOrStr (some sid) "" = sid := by simp [pyOrStr, hsid]
  obtain ⟨s, hs, hinv⟩ :
      ∃ s, lookupStore (ensureSession st sid now un ip) sid =
          some (SessionVal.chat s) ∧
        altTurns s.messages = true ∧ userCount s.messages = n ∧
        s.message_count = n := by
    rcases h with ⟨hnone, hn⟩ | ⟨s, hsome, ha, hc, hm⟩
    · refine ⟨newSession now un ip, ?_, by simp [newSession, altTurns, userCount, hn]⟩
      rw [ensure_of_none _ _ _ _ _ hnone, lookup_insert_self]
    · refine ⟨s, ?_, ha, hc, hm⟩
      rw [ensure_of_some _ _ _ _ _ _ hsome]
      exact hsome
  have hs' : lookupStore
      (ensureSession st (pyOrStr (some sid) "") now
        (ChatReq.user_name
          { prompt := prompt, session_id := some sid,
            user_name := un, images := imgs }) ip)
      (pyOrStr (some sid) "") = some (SessionVal.chat s) := by
    rw [hres]; exact hs
  refine ⟨_, chatHandler_eq now up "" _ ip st s hs', ?_, ?_⟩
  · refine Or.inr ⟨(chatCore now up (pyStrip prompt) imgs (pyOrStr (some sid) "") s).2.1, ?_, ?_, ?_, ?_⟩
    · simp only [hres]
      rw [lookup_insert_self]
    · rw [chatCore_messages]
      exact altTurns_append_pair s.messages _ _ rfl rfl hinv.1
    · rw [chatCore_messages, userCount_append_pair _ _ _ rfl rfl, hinv.2.1]
    · rw [chatCore_count, hinv.2.2]
  · simp only [chatCore_session_id, hres]

theorem runSession_sidOk {sid : String} (hsid : sid ≠ "") :
    ∀ (calls : List CallIn) (st : Store) (n : Nat), SidOk st sid n →
      ∃ st2, runSession sid calls st = some st2 ∧
        SidOk st2 sid (n + calls.length) := by
  intro calls
  induction calls with
  | nil => exact fun st n h => ⟨st, rfl, by simpa using h⟩
  | cons c cs ih =>
    intro st n h
    obtain ⟨o, ho, hok, _⟩ :=
      chatHandler_sidOk h hsid c.now c.up c.prompt c.user_name c.images c.ip
    obtain ⟨st2, hrun, hok2⟩ := ih o.store (n + 1) hok
    refine ⟨st2, ?_, by simpa [Nat.add_assoc, Nat.add_comm 1 cs.length] using hok2⟩
    simp only [runSession, ho]
    exact hrun

/-! ### Handler inversion and response non-emptiness -/

theorem chatCore_resp_nonempty (now : Nat) (up : Upstream) (prompt : String)
    (imgs : Option (List String)) (sid : String) (s : ChatSession) :
    (chatCore now up prompt imgs sid s).1.response ≠ "" := by
  unfold chatCore
  by_cases h : prompt = ""
  · simp [h]
    decide
  · cases up with
    | success raw =>
      simp only [h, if_neg h]
      rw [augment_eq]
      apply str_append_ne_empty_left
      apply str_append_ne_empty_left
      by_cases hr : pyStrip raw = ""
      · simp [hr]
        decide
      · simp [hr]
    | timeout =>
      simp [h]
      decide
    | failure =>
      simp [h]
      decide

/-- The outcome record of a successful handler run, packaged for the
inversion lemmas below (definitionally the record in `chatHandler_eq`). -/
def mkOutcome (now : Nat) (up : Upstream) (fresh : String) (req : ChatReq)
    (ip : String) (store : Store) (s : ChatSession) : ChatOutcome :=
  { resp := (chatCore now up (pyStrip req.prompt) req.images
      (pyOrStr req.session_id fresh) s).1
    store := insertStore
      (ensureSession store (pyOrStr req.session_id fresh) now req.user_name ip)
      (pyOrStr req.session_id fresh)
      (SessionVal.chat (chatCore now up (pyStrip req.prompt) req.images
        (pyOrStr req.session_id fresh) s).2.1)
    upstreamCalled := (chatCore now up (pyStrip req.prompt) req.images
      (pyOrStr req.session_id fresh) s).2.2 }

theorem mkOutcome_resp (now : Nat) (up : Upstream) (fresh : String)
    (req : ChatReq) (ip : String) (store : Store) (s : ChatSession) :
    (mkOutcome now up fresh req ip store s).resp =
      (chatCore now up (pyStrip req.prompt) req.images
        (pyOrStr req.session_id fresh) s).1 := rfl

theorem mkOutcome_store (now : Nat) (up : Upstream) (fresh : String)
    (req : ChatReq) (ip : String) (store : Store) (s : ChatSession) :
    (mkOutcome now up fresh req ip store s).store =
      insertStore
        (ensureSession store (pyOrStr req.session_id fresh) now req.user_name ip)
        (pyOrStr req.session_id fresh)
        (SessionVal.chat (chatCore now up (pyStrip req.prompt) req.images
          (pyOrStr req.session_id fresh) s).2.1) := rfl

theorem mkOutcome_called (now : Nat) (up : Upstream) (fresh : String)
    (req : ChatReq) (ip : String) (store : Store) (s : ChatSession) :
    (mkOutcome now up fresh req ip store s).upstreamCalled =
      (chatCore now up (pyStrip req.prompt) req.images
        (pyOrStr req.session_id fresh) s).2.2 := rfl

theorem chatHandler_eq_mk (now : Nat) (up : Upstream) (fresh : String)
    (req : ChatReq) (ip : String) (store : Store) (s : ChatSession)
    (hs : lookupStore
        (ensureSession store (pyOrStr req.session_id fresh) now req.user_name ip)
        (pyOrStr req.session_id fresh) = some (SessionVal.chat s)) :
    chatHandler now up fresh req ip store =
      some (mkOutcome now up fresh req ip store s) :=
  chatHandler_eq now up fresh req ip store s hs

theorem chatHandler_some_inv {now : Nat} {up : Upstream} {fresh : String}
    {req : ChatReq} {ip : String} {store : Store} {o : ChatOutcome}
    (h : chatHandler now up fresh req ip store = some o) :
    ∃ s, lookupStore (ensureSession store (pyOrStr req.session_id fresh) now
          req.user_name ip) (pyOrStr req.session_id fresh) =
        some (SessionVal.chat s) ∧
      o = mkOutcome now up fresh req ip store s := by
  rcases hb : chatCompatible store (pyOrStr req.session_id fresh) with _ | _
  · have hn := (chatHandler_none_iff now up fresh req ip store).mpr hb
    rw [hn] at h
    exact absurd h (by simp)
  · obtain ⟨s, hs, _⟩ := chatCompatible_ensure store _ now req.user_name ip hb
    have heq := chatHandler_eq_mk now up fresh req ip store s hs
    rw [heq] at h
    exact ⟨s, hs, (Option.some.inj h).symm⟩

/-! ### Claim C1 (session resolution) -/

/-- C1 counterexample: with an unknown but supplied session identifier
(`"returning-visitor"`, never created in the empty store), the returned
session identifier is the supplied one, not the newly generated
identifier, refuting the claim that an unknown identifier resolves to a
newly generated one. -/
theorem c1_counterexample :
    lookupStore ([] : Store) "returning-visitor" = none ∧
    (chatHandler 0 (Upstream.success "Hello!") "11111111-2222-3333-4444"
        { prompt := "hi", session_id := some "returning-visitor",
          user_name := none, images := none } "1.2.3.4" []).map
      (fun o => o.resp.session_id) = some "returning-visitor" ∧
    "returning-visitor" ≠ "11111111-2222-3333-4444" := by
  refine ⟨rfl, ?_, by decide⟩
  rfl

/-- C1 (amended): a missing or empty `session_id` resolves to the freshly
generated identifier; a supplied non-empty identifier is kept as the
effective identifier even when unknown, in which case an empty session is
created under the supplied identifier; a known identifier leaves the
store untouched; and the handler always returns the effective identifier. -/
theorem c1_session_resolution :
    (∀ fresh, pyOrStr none fresh = fresh ∧ pyOrStr (some "") fresh = fresh) ∧
    (∀ s fresh, s ≠ "" → pyOrStr (some s) fresh = s) ∧
    (∀ (store : Store) sid now un ip, lookupStore store sid = none →
      lookupStore (ensureSession store sid now un ip) sid =
        some (SessionVal.chat (newSession now un ip)) ∧
      (newSession now un ip).messages = [] ∧
      (newSession now un ip).message_count = 0) ∧
    (∀ (store : Store) sid now un ip v, lookupStore store sid = some v →
      ensureSession store sid now un ip = store) ∧
    (∀ now up fresh req ip store o,
      chatHandler now up fresh req ip store = some o →
      o.resp.session_id = pyOrStr req.session_id fresh) := by
  refine ⟨fun fresh => ⟨rfl, rfl⟩, fun s fresh hs => by simp [pyOrStr, hs],
    fun store sid now un ip h => ⟨?_, rfl, rfl⟩,
    fun store sid now un ip v h => ensure_of_some store sid now un ip v h,
    fun now up fresh req ip store o h => ?_⟩
  · rw [ensure_of_none _ _ _ _ _ h, lookup_insert_self]
  · obtain ⟨s, _, rfl⟩ := chatHandler_some_inv h
    exact chatCore_session_id now up (pyStrip req.prompt) req.images
      (pyOrStr req.session_id fresh) s

/-- Witness for C1 at concrete inputs. -/
theorem c1_session_resolution_witness :
    pyOrStr none "fresh-id" = "fresh-id" ∧
    lookupStore (ensureSession [] "abc" 0 none "1.2.3.4") "abc" =
      some (SessionVal.chat (newSession 0 none "1.2.3.4")) := by
  exact ⟨(c1_session_resolution.1 "fresh-id").1,
    (c1_session_resolution.2.2.1 [] "abc" 0 none "1.2.3.4" rfl).1⟩

/-! ### Claim C2 (shape of each return path) -/

/-- C2 counterexample: the timeout return path carries no
`message_count` key, so not every return path yields the running turn
count. -/
theorem c2_counterexample :
    (chatHandler 0 Upstream.timeout "f0"
        { prompt := "hello", session_id := some "s1",
          user_name := none, images := none } "1.2.3.4" []).map
      (fun o => o.resp.message_count) = some none := by
  rfl

/-- C2 (amended): every successful handler return carries the response
text (never empty) and the effective session identifier, but the running
turn count is present exactly on the success path with a non-empty
trimmed prompt; the empty-prompt, timeout and failure paths omit it. -/
theorem c2_return_paths (now : Nat) (up : Upstream) (fresh : String)
    (req : ChatReq) (ip : String) (store : Store) (o : ChatOutcome)
    (h : chatHandler now up fresh req ip store = some o) :
    o.resp.session_id = pyOrStr req.session_id fresh ∧
    o.resp.response ≠ "" ∧
    o.resp.message_count.isSome =
      (!(pyStrip req.prompt == "") && isSuccessUp up) := by
  obtain ⟨s, _, rfl⟩ := chatHandler_some_inv h
  exact ⟨chatCore_session_id now up (pyStrip req.prompt) req.images
      (pyOrStr req.session_id fresh) s,
    chatCore_resp_nonempty now up (pyStrip req.prompt) req.images
      (pyOrStr req.session_id fresh) s,
    chatCore_resp_count now up (pyStrip req.prompt) req.images
      (pyOrStr req.session_id fresh) s⟩

/-- Witness for C2 at a concrete success call. -/
theorem c2_return_paths_witness :
    ∃ o, chatHandler 0 (Upstream.success "Sure thing.") "f2"
        { prompt := "hello", session_id := some "s2",
          user_name := none, images := none } "1.2.3.4" [] = some o ∧
      (o.resp.session_id = pyOrStr (some "s2") "f2" ∧
        o.resp.response ≠ "" ∧
        o.resp.message_count.isSome =
          (!(pyStrip "hello" == "") && isSuccessUp (Upstream.success "Sure thing."))) := by
  refine ⟨_, rfl, c2_return_paths 0 (Upstream.success "Sure thing.") "f2"
    { prompt := "hello", session_id := some "s2",
      user_name := none, images := none } "1.2.3.4" [] _ rfl⟩

/-! ### Claim C3 (empty or whitespace-only prompt) -/

/-- C3 counterexample: a literally empty prompt violates the declared
`min_length=1` constraint of the `Chat` model and is rejected at the
boundary, so the fixed clarifying question is not recorded or returned
for it. -/
theorem c3_counterexample :
    chatEndpoint 0 (Upstream.success "Sure!") "f1"
      { prompt := "", session_id := some "s9",
        user_name := none, images := none } "1.2.3.4" [] =
      EndpointOut.rejected := by
  rfl

/-- C3 (amended): a validation-passing call whose trimmed prompt is empty
(whitespace-only) short-circuits: no upstream call is attempted and the
fixed clarifying question is recorded as the assistant turn and returned;
a literally empty prompt is instead rejected by request validation before
the handler runs. -/
theorem c3_empty_prompt :
    (∀ now up fresh req ip store, validChat req = true →
      pyStrip req.prompt = "" →
      chatCompatible store (pyOrStr req.session_id fresh) = true →
      ∃ o, chatEndpoint now up fresh req ip store = EndpointOut.ok o ∧
        o.upstreamCalled = false ∧
        o.resp.response = emptyPromptFallback ∧
        ∃ s2 pre, lookupStore o.store (pyOrStr req.session_id fresh) =
            some (SessionVal.chat s2) ∧
          s2.messages = pre ++ [mkAssistant now emptyPromptFallback]) ∧
    (∀ now up fresh req ip store, req.prompt = "" →
      chatEndpoint now up fresh req ip store = EndpointOut.rejected) := by
  constructor
  · intro now up fresh req ip store hv hp hc
    obtain ⟨s, hs, _⟩ := chatCompatible_ensure store _ now req.user_name ip hc
    have hh := chatHandler_eq_mk now up fresh req ip store s hs
    refine ⟨mkOutcome now up fresh req ip store s, ?_, ?_, ?_, ?_⟩
    · simp [chatEndpoint, hv, hh]
    · rw [mkOutcome_called, chatCore_called, hp]
      rfl
    · rw [mkOutcome_resp, hp, chatCore_resp_of_empty]
    · refine ⟨(chatCore now up (pyStrip req.prompt) req.images
          (pyOrStr req.session_id fresh) s).2.1,
        s.messages ++ [mkUser now (pyStrip req.prompt) req.images], ?_, ?_⟩
      · rw [mkOutcome_store]
        exact lookup_insert_self _ _ _
      · rw [chatCore_messages]
        have hresp : (chatCore now up (pyStrip req.prompt) req.images
            (pyOrStr req.session_id fresh) s).1.response = emptyPromptFallback := by
          rw [hp, chatCore_resp_of_empty]
        rw [hresp, List.append_assoc]
        rfl
  · intro now up fresh req ip store hp
    have hv : validChat req = false := by simp [validChat, hp]
    simp [chatEndpoint, hv]

/-- Witness for C3 at a concrete whitespace-only prompt. -/
theorem c3_empty_prompt_witness :
    ∃ o, chatEndpoint 0 (Upstream.success "yo") "f3"
        { prompt := "   ", session_id := some "s3",
          user_name := none, images := none } "1.2.3.4" [] =
        EndpointOut.ok o ∧
      o.upstreamCalled = false ∧ o.resp.response = emptyPromptFallback := by
  obtain ⟨o, h1, h2, h3, _⟩ := c3_empty_prompt.1 0 (Upstream.success "yo") "f3"
    { prompt := "   ", session_id := some "s3",
      user_name := none, images := none } "1.2.3.4" []
    (by decide) (by decide) (by decide)
  exact ⟨o, h1, h2, h3⟩

/-! ### Claim C4 (turn count and strict alternation) -/

/-- C4: for any non-empty sequence of chat calls reusing one session
identifier, starting from an empty store, the session's recorded
`message_count` equals the number of user calls made, the transcript
contains exactly that many `user` turns, and turns alternate strictly —
each recorded user turn is immediately followed by exactly one
assistant turn — whatever mix of success, empty-prompt, timeout and
failure paths the calls took. -/
theorem c4_transcript_invariant (sid : String) (calls : List CallIn)
    (st2 : Store) (hsid : sid ≠ "") (hcalls : calls ≠ [])
    (hrun : runSession sid calls [] = some st2) :
    ∃ s, lookupStore st2 sid = some (SessionVal.chat s) ∧
      s.message_count = calls.length ∧
      userCount s.messages = calls.length ∧
      altTurns s.messages = true := by
  obtain ⟨st3, hrun2, hok⟩ :=
    runSession_sidOk hsid calls [] 0 (Or.inl ⟨rfl, rfl⟩)
  rw [hrun] at hrun2
  obtain rfl : st2 = st3 := Option.some.inj hrun2
  rcases hok with ⟨_, hn⟩ | ⟨s, hs, ha, hc, hm⟩
  · exact absurd (List.length_eq_zero.mp (by omega)) hcalls
  · exact ⟨s, hs, by simpa using hm, by simpa using hc, ha⟩

/-- Witness for C4: two concrete calls (one success, one timeout) on the
same session. -/
theorem c4_transcript_invariant_witness :
    ∃ st2, runSession "s1"
        [{ now := 0, up := Upstream.success "Howdy!", prompt := "hi",
           user_name := none, images := none, ip := "1.2.3.4" },
         { now := 1, up := Upstream.timeout, prompt := "again",
           user_name := none, images := none, ip := "1.2.3.4" }] [] =
        some st2 ∧
      ∃ s, lookupStore st2 "s1" = some (SessionVal.chat s) ∧
        s.message_count = 2 ∧ userCount s.messages = 2 ∧
        altTurns s.messages = true := by
  refine ⟨_, rfl, c4_transcript_invariant "s1"
    [{ now := 0, up := Upstream.success "Howdy!", prompt := "hi",
       user_name := none, images := none, ip := "1.2.3.4" },
     { now := 1, up := Upstream.timeout, prompt := "again",
       user_name := none, images := none, ip := "1.2.3.4" }] _
    (by decide) (by decide) rfl⟩

/-! ### Claim C5 (model selection) -/

theorem callClaudePayload_model (u : String) (history : List Turn)
    (imgs : Option (List String)) (p : Payload)
    (h : callClaudePayload u history imgs = some p) :
    p.model = selectModel imgs := by
  unfold callClaudePayload at h
  rcases hb : buildMessages history u imgs with _ | ms
  · rw [hb] at h
    exact absurd h (by simp)
  · rw [hb] at h
    obtain rfl := Option.some.inj h
    rfl

/-- C5: the payload's model is the vision-capable variant exactly when
the current turn carries at least one image, the default text model
otherwise, and the choice is independent of the replayed history. -/
theorem c5_model_selection (u : String) (history : List Turn)
    (imgs : Option (List String)) (p : Payload)
    (h : callClaudePayload u history imgs = some p) :
    (p.model = "claude-sonnet-4-5" ↔ imgs.getD [] ≠ []) ∧
    (p.model = CLAUDE_MODEL ↔ imgs.getD [] = []) ∧
    (∀ (history2 : List Turn) (p2 : Payload),
      callClaudePayload u history2 imgs = some p2 → p2.model = p.model) := by
  have hm := callClaudePayload_model u history imgs p h
  refine ⟨?_, ?_, fun history2 p2 h2 => ?_⟩
  · rw [hm]
    unfold selectModel
    by_cases he : (imgs.getD []).isEmpty
    · rw [if_pos he]
      simp [List.isEmpty_iff.mp he, CLAUDE_MODEL]
    · rw [if_neg he]
      simp only [eq_self_iff_true, true_iff]
      exact fun hc => he (by rw [hc]; rfl)
  · rw [hm]
    unfold selectModel
    by_cases he : (imgs.getD []).isEmpty
    · simp [List.isEmpty_iff.mp he]
    · rw [if_neg he]
      constructor
      · intro hc
        exact absurd hc (by decide)
      · intro hc
        exact absurd (by rw [hc]; rfl) he
  · rw [callClaudePayload_model u history2 imgs p2 h2, hm]

/-- Witness for C5: one image forces the vision model. -/
theorem c5_model_selection_witness :
    ∃ p, callClaudePayload "look" [] (some ["xyz"]) = some p ∧
      (p.model = "claude-sonnet-4-5" ↔
        (some ["xyz"] : Option (List String)).getD [] ≠ []) := by
  refine ⟨_, rfl, (c5_model_selection "look" [] (some ["xyz"]) _ rfl).1⟩

/-! ### Claim C6 (history entry content shaping) -/

/-- C6: a historical user turn with images becomes a `user` entry whose
content is the ordered image blocks — media type inferred from the
data-URI header, JPEG by default — followed by exactly one trailing text
block; an image-free user turn and every assistant turn become plain
string content; and the full message list appends the current user entry
after the replayed history. -/
theorem c6_history_content (t : Turn) :
    (t.type = "user" → ∀ imgs, t.images = some imgs → imgs ≠ [] →
      (∀ img ∈ imgs, wellFormedImg img = true) →
      turnToMsgs t = some [⟨"user", CContent.blocks
        ((imgs.map (fun im => CBlock.image (mediaTypeFor im) (dataOf im)))
          ++ [CBlock.text t.message])⟩]) ∧
    (t.type = "user" → t.images.getD [] = [] →
      turnToMsgs t = some [⟨"user", CContent.str t.message⟩]) ∧
    (t.type = "assistant" →
      turnToMsgs t = some [⟨"assistant", CContent.str t.message⟩]) ∧
    (∀ img, pyStartsWith img "data:" = false →
      mediaTypeFor img = "image/jpeg") ∧
    (∀ (ts : List Turn) (cur : Turn) (u : String)
        (imgs2 : Option (List String)) (ms : List CMsg) (c : CContent),
      turnsToMsgs ts = some ms → buildContent u (imgs2.getD []) = some c →
      buildMessages (ts ++ [cur]) u imgs2 =
        some (ms ++ [{ role := "user", content := c }])) := by
  refine ⟨?_, ?_, ?_, ?_, ?_⟩
  · intro ht imgs hi hne hwf
    have hbe : imgs.isEmpty = false := by
      cases imgs with
      | nil => exact absurd rfl hne
      | cons a as => rfl
    unfold turnToMsgs
    rw [if_pos (by simp [ht])]
    unfold buildContent
    rw [hi]
    simp only [Option.getD_some, hbe, Bool.false_eq_true, if_false,
      processImages_wf imgs hwf]
  · intro ht hempty
    unfold turnToMsgs
    rw [if_pos (by simp [ht])]
    unfold buildContent
    rw [hempty]
    rfl
  · intro ht
    unfold turnToMsgs
    rw [if_neg (by simp [ht]), if_pos (by simp [ht])]
  · intro img h
    unfold mediaTypeFor
    rw [h]
    rfl
  · intro ts cur u imgs2 ms c hts hbc
    unfold buildMessages
    rw [List.dropLast_concat, hts, hbc]

/-- Witness for C6: a turn with one PNG data-URI image and one raw base64
image yields the two tagged blocks plus the trailing text block. -/
theorem c6_history_content_witness :
    turnToMsgs ⟨0, "user", "see this",
        some ["data:image/png;base64,AAA", "BBB"]⟩ =
      some [⟨"user", CContent.blocks
        [CBlock.image "image/png" "AAA", CBlock.image "image/jpeg" "BBB",
         CBlock.text "see this"]⟩] := by
  exact (c6_history_content
    ⟨0, "user", "see this", some ["data:image/png;base64,AAA", "BBB"]⟩).1
    rfl _ rfl (by decide) (by decide)

/-! ### Claim C7 (keyword-triggered response augmentation) -/

/-- C7: the augmentation is a pure function of the raw model text and the
original user text: the quote suffix (naming the business phone and
email) is appended exactly when a purchase-intent keyword occurs
case-insensitively in the user text, the social suffix (naming the
Facebook page) exactly when a social keyword occurs; both can fire in one
call, quote suffix first, each suffix opening with a blank line; with no
trigger keyword the text is unchanged. -/
theorem c7_augmentation :
    (∀ raw prompt, augment raw prompt =
      raw ++ (if hasKeyword prompt quoteKeywords then quoteSuffix else "")
          ++ (if hasKeyword prompt socialKeywords then socialSuffix else "")) ∧
    containsStr quoteSuffix BUSINESS_PHONE = true ∧
    containsStr quoteSuffix BUSINESS_EMAIL = true ∧
    containsStr socialSuffix FACEBOOK_PAGE = true ∧
    pyStartsWith quoteSuffix "\n\n" = true ∧
    pyStartsWith socialSuffix "\n\n" = true ∧
    hasKeyword "What is your PRICE?" quoteKeywords = true ∧
    hasKeyword "hello there" quoteKeywords = false ∧
    hasKeyword "hello there" socialKeywords = false := by
  exact ⟨augment_eq, by decide, by decide, by decide, by decide, by decide,
    by decide, by decide, by decide⟩

/-! ### Claim C8 (upstream timeout handling) -/

/-- C8: on upstream timeout the endpoint returns the fixed try-again
message, which names the business phone, records it as the assistant
turn, and answers normally (no rejection or server error propagates). -/
theorem c8_timeout (now : Nat) (fresh : String) (req : ChatReq) (ip : String)
    (store : Store) (hv : validChat req = true)
    (hp : pyStrip req.prompt ≠ "")
    (hc : chatCompatible store (pyOrStr req.session_id fresh) = true) :
    ∃ o, chatEndpoint now Upstream.timeout fresh req ip store =
        EndpointOut.ok o ∧
      o.resp.response = timeoutResponse ∧
      o.resp.session_id = pyOrStr req.session_id fresh ∧
      containsStr timeoutResponse BUSINESS_PHONE = true ∧
      ∃ s2 pre, lookupStore o.store (pyOrStr req.session_id fresh) =
          some (SessionVal.chat s2) ∧
        s2.messages = pre ++ [mkAssistant now timeoutResponse] := by
  obtain ⟨s, hs, _⟩ := chatCompatible_ensure store _ now req.user_name ip hc
  have hh := chatHandler_eq_mk now Upstream.timeout fresh req ip store s hs
  refine ⟨mkOutcome now Upstream.timeout fresh req ip store s, ?_, ?_, ?_,
    by decide, ?_⟩
  · simp [chatEndpoint, hv, hh]
  · rw [mkOutcome_resp, chatCore_resp_of_timeout _ _ _ _ _ hp]
  · rw [mkOutcome_resp, chatCore_session_id]
  · refine ⟨(chatCore now Upstream.timeout (pyStrip req.prompt) req.images
        (pyOrStr req.session_id fresh) s).2.1,
      s.messages ++ [mkUser now (pyStrip req.prompt) req.images], ?_, ?_⟩
    · rw [mkOutcome_store]
      exact lookup_insert_self _ _ _
    · rw [chatCore_messages]
      have hresp : (chatCore now Upstream.timeout (pyStrip req.prompt)
          req.images (pyOrStr req.session_id fresh) s).1.response =
          timeoutResponse := by
        rw [chatCore_resp_of_timeout _ _ _ _ _ hp]
      rw [hresp, List.append_assoc]
      rfl

/-- Witness for C8 at a concrete timed-out call. -/
theorem c8_timeout_witness :
    ∃ o, chatEndpoint 7 Upstream.timeout "f8"
        { prompt := "price please", session_id := some "s8",
          user_name := none, images := none } "1.2.3.4" [] =
        EndpointOut.ok o ∧
      o.resp.response = timeoutResponse ∧
      containsStr timeoutResponse BUSINESS_PHONE = true := by
  obtain ⟨o, h1, h2, _, h4, _⟩ := c8_timeout 7 "f8"
    { prompt := "price please", session_id := some "s8",
      user_name := none, images := none } "1.2.3.4" []
    (by decide) (by decide) (by decide)
  exact ⟨o, h1, h2, h4⟩

/-! ### Claim C9 (session persistence of recorded turns) -/

/-- C9 counterexample: a live-quote request for an identifier holding a
two-turn chat transcript replaces the record outright — afterwards the
stored value has no turns — refuting the claim that no endpoint replaces
or clears the session record. -/
theorem c9_counterexample :
    ((lookupStore [("s1", SessionVal.chat
        { created := 0, user_name := "Visitor", message_count := 1,
          last_activity := 0, ip := "1.2.3.4",
          messages := [⟨0, "user", "hi", some []⟩,
            ⟨0, "assistant", "hello", none⟩] })] "s1").map
      (fun v => (turnsOf v).length) = some 2) ∧
    ((lookupStore (requestLiveQuote 5
        { session_id := "s1", user_name := "Bob", phone := "5551234567",
          service_needed := "fence repair" } "1.2.3.4"
        [("s1", SessionVal.chat
          { created := 0, user_name := "Visitor", message_count := 1,
            last_activity := 0, ip := "1.2.3.4",
            messages := [⟨0, "user", "hi", some []⟩,
              ⟨0, "assistant", "hello", none⟩] })]) "s1").map
      (fun v => (turnsOf v).length) = some 0) := by
  exact ⟨rfl, rfl⟩

/-- C9 (amended): every chat-handler return preserves each stored
session's previously recorded turns (the transcript only grows); the
live-quote endpoint, however, unconditionally replaces the record for the
supplied identifier with a fresh quote-request record carrying no turns,
discarding any prior transcript. -/
theorem c9_transcript_preservation :
    (∀ now up fresh req ip store o,
      chatHandler now up fresh req ip store = some o →
      ∀ sid2 v, lookupStore store sid2 = some v →
        ∃ v2 ext, lookupStore o.store sid2 = some v2 ∧
          turnsOf v2 = turnsOf v ++ ext) ∧
    (∀ now req ip store,
      (lookupStore (requestLiveQuote now req ip store) req.session_id).map
        turnsOf = some []) := by
  constructor
  · intro now up fresh req ip store o h sid2 v hv
    obtain ⟨s, hs, rfl⟩ := chatHandler_some_inv h
    by_cases heq : sid2 = pyOrStr req.session_id fresh
    · rw [heq] at hv ⊢
      have hens : ensureSession store (pyOrStr req.session_id fresh) now
          req.user_name ip = store :=
        ensure_of_some store _ now req.user_name ip v hv
      rw [hens] at hs
      have hvs : v = SessionVal.chat s := by
        rw [hv] at hs
        exact Option.some.inj hs
      refine ⟨SessionVal.chat (chatCore now up (pyStrip req.prompt) req.images
          (pyOrStr req.session_id fresh) s).2.1,
        [mkUser now (pyStrip req.prompt) req.images,
         mkAssistant now (chatCore now up (pyStrip req.prompt) req.images
           (pyOrStr req.session_id fresh) s).1.response], ?_, ?_⟩
      · rw [mkOutcome_store, hens]
        exact lookup_insert_self _ _ _
      · rw [hvs]
        exact chatCore_messages now up (pyStrip req.prompt) req.images
          (pyOrStr req.session_id fresh) s
    · refine ⟨v, [], ?_, by simp⟩
      rw [mkOutcome_store, lookup_insert_ne _ _ _ _ heq,
        ensure_lookup_other _ _ _ _ _ _ heq]
      exact hv
  · intro now req ip store
    rw [requestLiveQuote, lookup_insert_self]
    rfl

/-- Witness for C9 at a concrete chat call over an existing session. -/
theorem c9_transcript_preservation_witness :
    ∃ o, chatHandler 1 (Upstream.success "ok then") "f9"
        { prompt := "again", session_id := some "s1",
          user_name := none, images := none } "1.2.3.4"
        [("s1", SessionVal.chat
          { created := 0, user_name := "Visitor", message_count := 1,
            last_activity := 0, ip := "1.2.3.4",
            messages := [⟨0, "user", "hi", some []⟩,
              ⟨0, "assistant", "hello", none⟩] })] = some o ∧
      ∃ v2 ext, lookupStore o.store "s1" = some v2 ∧
        turnsOf v2 = turnsOf (SessionVal.chat
          { created := 0, user_name := "Visitor", message_count := 1,
            last_activity := 0, ip := "1.2.3.4",
            messages := [⟨0, "user", "hi", some []⟩,
              ⟨0, "assistant", "hello", none⟩] }) ++ ext := by
  have h := c9_transcript_preservation.1 1 (Upstream.success "ok then") "f9"
    { prompt := "again", session_id := some "s1",
      user_name := none, images := none } "1.2.3.4"
    [("s1", SessionVal.chat
      { created := 0, user_name := "Visitor", message_count := 1,
        last_activity := 0, ip := "1.2.3.4",
        messages := [⟨0, "user", "hi", some []⟩,
          ⟨0, "assistant", "hello", none⟩] })] _ rfl "s1"
    (SessionVal.chat
      { created := 0, user_name := "Visitor", message_count := 1,
        last_activity := 0, ip := "1.2.3.4",
        messages := [⟨0, "user", "hi", some []⟩,
          ⟨0, "assistant", "hello", none⟩] }) rfl
  exact ⟨_, rfl, h⟩

/-! ### Claim C10 (empty upstream text fallback before suffix rules) -/

/-- C10: when the upstream call succeeds but its stripped text is empty,
the fixed clarifying fallback is substituted before the keyword suffix
rules run, so a quote-keyword-bearing prompt yields — and records as the
assistant turn — the fallback message with the quote suffix appended
(plus the social suffix when that set also fires). -/
theorem c10_empty_success_fallback (now : Nat) (fresh : String)
    (req : ChatReq) (ip : String) (store : Store) (raw : String)
    (hp : pyStrip req.prompt ≠ "")
    (hr : pyStrip raw = "")
    (hq : hasKeyword (pyStrip req.prompt) quoteKeywords = true)
    (hc : chatCompatible store (pyOrStr req.session_id fresh) = true) :
    ∃ o, chatHandler now (Upstream.success raw) fresh req ip store = some o ∧
      o.resp.response = emptyClaudeFallback ++ quoteSuffix
        ++ (if hasKeyword (pyStrip req.prompt) socialKeywords then socialSuffix
            else "") ∧
      ∃ s2 pre, lookupStore o.store (pyOrStr req.session_id fresh) =
          some (SessionVal.chat s2) ∧
        s2.messages = pre ++ [mkAssistant now o.resp.response] := by
  obtain ⟨s, hs, _⟩ := chatCompatible_ensure store _ now req.user_name ip hc
  have hh := chatHandler_eq_mk now (Upstream.success raw) fresh req ip store s hs
  have hresp : (chatCore now (Upstream.success raw) (pyStrip req.prompt)
      req.images (pyOrStr req.session_id fresh) s).1.response =
      emptyClaudeFallback ++ quoteSuffix
        ++ (if hasKeyword (pyStrip req.prompt) socialKeywords then socialSuffix
            else "") := by
    rw [chatCore_resp_of_success _ _ _ _ _ _ hp, augment_eq, hq]
    simp [hr]
  refine ⟨mkOutcome now (Upstream.success raw) fresh req ip store s, hh, ?_, ?_⟩
  · rw [mkOutcome_resp, hresp]
  · refine ⟨(chatCore now (Upstream.success raw) (pyStrip req.prompt)
        req.images (pyOrStr req.session_id fresh) s).2.1,
      s.messages ++ [mkUser now (pyStrip req.prompt) req.images], ?_, ?_⟩
    · rw [mkOutcome_store]
      exact lookup_insert_self _ _ _
    · rw [chatCore_messages, mkOutcome_resp, List.append_assoc]
      rfl

/-- Witness for C10: a quote-keyword prompt with whitespace-only upstream
text returns the fallback plus the quote suffix. -/
theorem c10_empty_success_fallback_witness :
    ∃ o, chatHandler 3 (Upstream.success "  ") "f10"
        { prompt := "how much for a fence?", session_id := some "s10",
          user_name := none, images := none } "1.2.3.4" [] = some o ∧
      o.resp.response = emptyClaudeFallback ++ quoteSuffix
        ++ (if hasKeyword (pyStrip "how much for a fence?") socialKeywords
            then socialSuffix else "") := by
  obtain ⟨o, h1, h2, _⟩ := c10_empty_success_fallback 3 "f10"
    { prompt := "how much for a fence?", session_id := some "s10",
      user_name := none, images := none } "1.2.3.4" [] "  "
    (by decide) (by decide) (by decide) (by decide)
  exact ⟨o, h1, h2⟩

end Kingwood
